import Mathlib

/-
Shallow embedding of the certificate-issuance pipeline of `CertificatesService`
(src/certificates: createBasicCertificate, uploadToPinata, sendToAvalanche,
generateQRCode, createCompleteCertificate, validateCertificate,
getCertificateStatus and their private update helpers).

Modelling conventions:
* The Supabase `certificates` table is a function `DB := String -> Option Certificate`
  (the primary key makes rows unique per id).  Reads are deterministic lookups;
  writes can fail, which is driven by explicit error fields of the environment,
  mirroring the `{ error }` results Supabase returns for `update`/`insert`.
* All external collaborators (Pinata uploads, QR generation, the institution and
  user lookups, the pre-flight fetches, the Avalanche mint endpoint, the system
  clock, `Date#toISOString`, `randomUUID`) are modelled as fields of an `Env`
  record: each field is the outcome the external world produces at the unique
  call site that consumes it.
* JavaScript truthiness on string-or-nullish values is `truthy`; `a || b` is
  `jsOr` / `orDefault`; interpolation of a possibly-undefined config value into
  a template literal is `jsInterp` (JS renders `undefined`).
* A thrown `Error(msg)` is `Except.error msg`; the functions return their final
  database alongside the outcome because partial writes persist across a throw.
* `sendToAvalanche` additionally returns the ordered list of outbound network
  calls it performed (the two pre-flight fetches and the mint POST), which is
  what the temporal claims about "never invokes the ledger" quantify over.
-/

namespace Tessera

/-- JS truthiness of a string-or-nullish value: `undefined`, `null` and `""` are falsy. -/
def truthy : Option String → Bool
  | none => false
  | some s => !(s == "")

/-- JS `a || b` on string-or-nullish values. -/
def jsOr (a b : Option String) : Option String :=
  if truthy a then a else b

/-- JS `a || d` where `d` is a string literal default. -/
def orDefault (a : Option String) (d : String) : String :=
  match a with
  | some s => if s == "" then d else s
  | none => d

/-- JS template-literal interpolation of a possibly-undefined value. -/
def jsInterp (a : Option String) : String :=
  match a with
  | some s => s
  | none => "undefined"

instance {ε α : Type} [DecidableEq ε] [DecidableEq α] : DecidableEq (Except ε α) :=
  fun a b =>
    match a, b with
    | Except.ok x, Except.ok y =>
      if h : x = y then Decidable.isTrue (by rw [h]) else Decidable.isFalse (by simp [h])
    | Except.error x, Except.error y =>
      if h : x = y then Decidable.isTrue (by rw [h]) else Decidable.isFalse (by simp [h])
    | Except.ok _, Except.error _ => Decidable.isFalse (by simp)
    | Except.error _, Except.ok _ => Decidable.isFalse (by simp)

/-- Executable character-list core of `String#startsWith`. -/
def charListBeginsWith : List Char → List Char → Bool
  | [], _ => true
  | _ :: _, [] => false
  | a :: as, b :: bs => a == b && charListBeginsWith as bs

/-- The TS `s.startsWith(p)` (kernel-reducible implementation). -/
def strBeginsWith (s p : String) : Bool := charListBeginsWith p.data s.data

/-- The TS `s.toLowerCase()` on ASCII data (kernel-reducible implementation). -/
def strToLower (s : String) : String := String.mk (s.data.map Char.toLower)

/-- The TS `s.trim()` (kernel-reducible implementation). -/
def strTrim (s : String) : String :=
  String.mk (((s.data.dropWhile Char.isWhitespace).reverse.dropWhile
    Char.isWhitespace).reverse)

/-- The service's `ensureHttpUrl`: prefix `https://` unless the trimmed URL already
starts with `http://` or `https://` (case-insensitively); empty input is returned as is. -/
def ensureHttpUrl (url : String) : String :=
  if url == "" then url
  else
    let trimmed := strTrim url
    let low := strToLower trimmed
    if strBeginsWith low "http://" || strBeginsWith low "https://" then trimmed
    else "https://" ++ trimmed

/-- The `.replace(/\x7b slashes at end \x7d/, "")` idiom: drop every trailing slash. -/
def stripTrailingSlashes (s : String) : String :=
  String.mk ((s.data.reverse.dropWhile (· == '/')).reverse)

/-- The `cleanUrl` helper of `createCompleteCertificate`: collapse the first run of
redundant slashes that follows a non-colon character (regex `([^:]\/)\/+`, replaced once). -/
def cleanUrlAux : List Char → List Char
  | [] => []
  | c :: rest =>
    if c = ':' then c :: cleanUrlAux rest
    else
      match rest with
      | '/' :: '/' :: tail => c :: '/' :: tail.dropWhile (· == '/')
      | r :: tail => c :: cleanUrlAux (r :: tail)
      | [] => [c]

def cleanUrl (url : String) : String :=
  String.mk (cleanUrlAux url.data)

/-! ## Data model -/

structure CreateCertificateDto where
  course_name : String
  recipient_name : String
  institute_id : String
  issued_at : String
deriving Repr, DecidableEq

/-- A row of the `certificates` table.  The pipeline-progress columns are nullable. -/
structure Certificate where
  id : String
  recipient_name : String
  course_name : String
  institute_id : String
  issued_at : String
  image_hash : Option String := none
  metadata_hash : Option String := none
  transaction_hash : Option String := none
  arbitrum_hash : Option String := none
  qr_url : Option String := none
  created_at : String := ""
deriving Repr, DecidableEq

/-- A row of the `institutions` table (only the columns the pipeline reads). -/
structure Institution where
  id : String
  name : Option String := none
  legal_id : Option String := none
  website : Option String := none
deriving Repr, DecidableEq

/-- A row of the `users` table (only the columns the pipeline reads). -/
structure UserRow where
  id : String
  email : String
  full_name : String
deriving Repr, DecidableEq

structure PinataUploadResponse where
  image_hash : String
  metadata_hash : String
  image_url : String
  metadata_url : String
deriving Repr, DecidableEq

structure MetaAttribute where
  trait_type : String
  value : String
deriving Repr, DecidableEq

structure CertificateMetadata where
  id : String
  course_name : String
  recipient_name : String
  institution_name : String
  issued_at : String
  certificate_type : String
  blockchain : String
  api_version : String
  created_at : String
  image : Option String := none
  external_url : Option String := none
  name : Option String := none
  description : Option String := none
  attributes : List MetaAttribute := []
deriving Repr, DecidableEq

/-- The `data` object nested under a chain key of the mint response
(`result.data.avalanche.data` / `result.data.arbitrum.data`). -/
structure ChainData where
  transaction_hash : Option String := none
  block_number : Option Nat := none
  gas_used : Option String := none
  contract_address : Option String := none
  network : Option String := none
deriving Repr, DecidableEq

/-- A chain entry of the mint response (`result.data.avalanche` / `result.data.arbitrum`);
each field is `none` when the corresponding key is absent from the JSON. -/
structure ChainEntry where
  data : Option ChainData := none
deriving Repr, DecidableEq

structure MintData where
  avalanche : Option ChainEntry := none
  arbitrum : Option ChainEntry := none
deriving Repr, DecidableEq

/-- The parsed JSON body returned by the mint endpoint, with every candidate
location of the transaction hash that the extraction code consults. -/
structure MintResult where
  data : Option MintData := none
  transaction_hash : Option String := none
  hash : Option String := none
  txHash : Option String := none
  tx_hash : Option String := none
  transactionHash : Option String := none
deriving Repr, DecidableEq

/-- The value returned by `sendToAvalanche` (interface `AvalancheResponse`). -/
structure AvalancheResponse where
  transaction_hash : String
  avalanche : Option ChainData := none
  arbitrum : Option ChainData := none
deriving Repr, DecidableEq

/-- Parsed metadata JSON fetched during pre-flight validation. -/
structure MetaJson where
  image : Option String := none
deriving Repr, DecidableEq

/-- An HTTP response as far as the service inspects it. -/
structure FetchResp where
  ok : Bool := false
  status : Nat := 0
  body : String := ""
deriving Repr, DecidableEq

/-! ## The anchoring payload (`avalancheData` in `sendToAvalanche`) -/

structure StudentData where
  id : String
  email : String
  full_name : String
  wallet_address : String
deriving Repr, DecidableEq

structure CertPayload where
  title : String
  description : String
  course_name : String
  issued_at : String
  grade : String
  credits : Nat
deriving Repr, DecidableEq

structure InstitutionPayload where
  id : String
  name : String
  legal_id : String
  address : String
  website : String
deriving Repr, DecidableEq

structure IpfsPayload where
  image_hash : String
  metadata_hash : String
  image_url : String
  metadata_url : String
  token_uri : String
  front_end_url : Option String
deriving Repr, DecidableEq

structure AvalancheData where
  student : StudentData
  certificate : CertPayload
  institution : InstitutionPayload
  ipfs : IpfsPayload
deriving Repr, DecidableEq

/-- One outbound network call performed by `sendToAvalanche`. -/
inductive NetCall where
  | fetchMetadata (url : String)
  | fetchImage (url : String)
  | mintRequest (payload : AvalancheData)
deriving Repr, DecidableEq

def NetCall.isMint : NetCall → Bool
  | .mintRequest _ => true
  | _ => false

/-! ## Environment: outcomes of every external interaction -/

structure Env where
  /-- `new Date().toISOString()` at the moments the service stamps objects. -/
  now : String := ""
  /-- `randomUUID()` for the certificate created by `createBasicCertificate`. -/
  newId : String := ""
  /-- `configService.get(PINATA_GATEWAY_URL)`. -/
  pinataGatewayUrl : Option String := none
  /-- `configService.get(PUBLIC_IPFS_GATEWAY)`. -/
  publicIpfsGateway : Option String := none
  /-- `configService.get(FRONTEND_URL)`. -/
  frontendUrl : Option String := none
  /-- `new Date(x).toISOString()` conversion used for the payload issued_at. -/
  toIso : String → String := fun s => s
  /-- Error returned by the `certificates` insert, when it fails. -/
  insertError : Option String := none
  /-- The `institutions` row for the certificate's institute_id (`none`: lookup
  errored or found nothing). -/
  institution : Option Institution := none
  /-- Interpolated `institutionError?.message` when the institution lookup fails. -/
  institutionErrMsg : String := "undefined"
  /-- The `users` row matched by recipient full_name and institution (`none`:
  errored or not found). -/
  studentUser : Option UserRow := none
  /-- `pinataService.uploadFile` on the certificate image: CID or thrown error. -/
  uploadFileImage : String → Except String String := fun _ => Except.error ""
  /-- `pinataService.uploadJSON` on the metadata object: CID or thrown error. -/
  uploadJSONMeta : CertificateMetadata → Except String String := fun _ => Except.error ""
  /-- `pinataService.uploadFile` on the QR image: CID or thrown error. -/
  uploadFileQr : String → Except String String := fun _ => Except.error ""
  /-- `qrService.generateCustomQR` on the verification URL: buffer or thrown error. -/
  generateCustomQR : String → Except String String := fun _ => Except.error ""
  /-- Error returned by the hashes update, when it fails. -/
  updateHashesError : Option String := none
  /-- Error returned by the transaction_hash update, when it fails. -/
  updateTxError : Option String := none
  /-- Error returned by the qr_url update, when it fails. -/
  updateQrError : Option String := none
  /-- Error returned by the arbitrum_hash update, when it fails. -/
  updateArbError : Option String := none
  /-- Response to the pre-flight GET of the metadata URL. -/
  metaResp : FetchResp := {}
  /-- `metaResp.json()` outcome (`none`: body was not parseable JSON). -/
  metaJson : Option MetaJson := none
  /-- Response to the pre-flight GET of the image URL. -/
  imgResp : FetchResp := {}
  /-- `imgResp.headers.get(content-type)`. -/
  imgContentType : Option String := none
  /-- Response status of the mint POST. -/
  mintResp : FetchResp := {}
  /-- `response.json()` of the mint POST. -/
  mintResult : MintResult := {}

/-! ## The certificates table -/

abbrev DB := String → Option Certificate

def dbEmpty : DB := fun _ => none

def dbInsert (db : DB) (c : Certificate) : DB :=
  fun i => if i = c.id then some c else db i

def dbUpdate (db : DB) (id : String) (f : Certificate → Certificate) : DB :=
  fun i => if i = id then (db i).map f else db i

/-! ## Operations -/

/-- `getCertificateById`: single-row select; any error or missing row becomes a
`NotFoundException`. -/
def getCertificateById (db : DB) (certificateId : String) : Except String Certificate :=
  match db certificateId with
  | some c => Except.ok c
  | none => Except.error ("Certificate " ++ certificateId ++ " not found")

/-- PASO 1 `createBasicCertificate`: insert a fresh row with only the descriptive
fields populated; a store rejection surfaces as `Database error: ...`. -/
def createBasicCertificate (env : Env) (createDto : CreateCertificateDto) (db : DB) :
    DB × Except String Certificate :=
  if (db env.newId).isSome then
    (db, Except.error "Database error: duplicate key value violates unique constraint")
  else
    match env.insertError with
    | some e => (db, Except.error ("Database error: " ++ e))
    | none =>
      let cert : Certificate :=
        { id := env.newId
          recipient_name := createDto.recipient_name
          course_name := createDto.course_name
          institute_id := createDto.institute_id
          issued_at := createDto.issued_at
          created_at := env.now }
      (dbInsert db cert, Except.ok cert)

/-- Private helper `updateCertificateHashes`. -/
def updateCertificateHashes (env : Env) (certificateId imageHash metadataHash : String)
    (db : DB) : DB × Except String Unit :=
  match env.updateHashesError with
  | some e => (db, Except.error ("Failed to update certificate hashes: " ++ e))
  | none =>
    (dbUpdate db certificateId
      (fun c => { c with image_hash := some imageHash, metadata_hash := some metadataHash }),
     Except.ok ())

/-- Private helper `updateTransactionHash`. -/
def updateTransactionHash (env : Env) (certificateId transactionHash : String)
    (db : DB) : DB × Except String Unit :=
  match env.updateTxError with
  | some e => (db, Except.error ("Failed to update transaction hash: " ++ e))
  | none =>
    (dbUpdate db certificateId (fun c => { c with transaction_hash := some transactionHash }),
     Except.ok ())

/-- Private helper `updateQRUrl`. -/
def updateQRUrl (env : Env) (certificateId qrUrl : String) (db : DB) :
    DB × Except String Unit :=
  match env.updateQrError with
  | some e => (db, Except.error ("Failed to update QR URL: " ++ e))
  | none =>
    (dbUpdate db certificateId (fun c => { c with qr_url := some qrUrl }), Except.ok ())

/-- Private helper `updateArbitrumHash`. -/
def updateArbitrumHash (env : Env) (certificateId arbitrumHash : String) (db : DB) :
    DB × Except String Unit :=
  match env.updateArbError with
  | some e => (db, Except.error ("Failed to update Arbitrum hash: " ++ e))
  | none =>
    (dbUpdate db certificateId (fun c => { c with arbitrum_hash := some arbitrumHash }),
     Except.ok ())

/-- `generateMetadata`: build the NFT metadata object for a certificate. -/
def generateMetadata (env : Env) (certificate : Certificate) (institutionName : String) :
    CertificateMetadata :=
  { id := certificate.id
    name := some ("Certificado - " ++ certificate.recipient_name)
    description := some ("Certificado de " ++ certificate.course_name ++ " emitido por "
      ++ institutionName)
    course_name := certificate.course_name
    recipient_name := certificate.recipient_name
    institution_name := institutionName
    issued_at := certificate.issued_at
    certificate_type := "Digital Certificate"
    blockchain := "avalanche"
    api_version := "2.0.0"
    created_at := env.now
    attributes :=
      [ { trait_type := "Recipient", value := certificate.recipient_name }
      , { trait_type := "Course", value := certificate.course_name }
      , { trait_type := "Institution", value := institutionName }
      , { trait_type := "Issued At", value := certificate.issued_at } ] }

/-- PASO 2 `uploadToPinata`: upload image, build and upload metadata, persist both CIDs. -/
def uploadToPinata (env : Env) (certificateId : String) (imageBuffer : String) (db : DB) :
    DB × Except String PinataUploadResponse :=
  match getCertificateById db certificateId with
  | Except.error e => (db, Except.error e)
  | Except.ok certificate =>
    let gatewayUrl :=
      stripTrailingSlashes (ensureHttpUrl (orDefault env.pinataGatewayUrl
        "https://gateway.pinata.cloud"))
    let publicGatewayUrl :=
      stripTrailingSlashes (ensureHttpUrl (orDefault env.publicIpfsGateway gatewayUrl))
    let frontendRaw := orDefault env.frontendUrl ""
    let frontendUrl :=
      if frontendRaw == "" then "" else stripTrailingSlashes (ensureHttpUrl frontendRaw)
    match env.uploadFileImage imageBuffer with
    | Except.error e => (db, Except.error e)
    | Except.ok imageCid =>
      let imageUrl := gatewayUrl ++ "/ipfs/" ++ imageCid
      let imageUrlPublic := publicGatewayUrl ++ "/ipfs/" ++ imageCid
      let institutionName :=
        orDefault (env.institution.bind (fun i => i.name)) "Unknown Institution"
      let metadataObj0 := generateMetadata env certificate institutionName
      let metadataObj1 := { metadataObj0 with image := some imageUrlPublic }
      let metadataObj :=
        if frontendUrl == "" then metadataObj1
        else { metadataObj1 with
                external_url := some (frontendUrl ++ "/certificate/" ++ certificateId) }
      match env.uploadJSONMeta metadataObj with
      | Except.error e => (db, Except.error e)
      | Except.ok metadataCid =>
        let response : PinataUploadResponse :=
          { image_hash := imageCid
            metadata_hash := metadataCid
            image_url := imageUrl
            metadata_url := gatewayUrl ++ "/ipfs/" ++ metadataCid }
        match updateCertificateHashes env certificateId response.image_hash
            response.metadata_hash db with
        | (db2, Except.error e) => (db2, Except.error e)
        | (db2, Except.ok _) => (db2, Except.ok response)

/-- The first-match-wins transaction-hash extraction of `sendToAvalanche`
(lines: nested avalanche container, then nested arbitrum container, then the
flat aliases `transaction_hash || hash || txHash || tx_hash || transactionHash`).
The result is the value of the JS variable `transactionHash` (possibly nullish). -/
def flatHash (result : MintResult) : Option String :=
  jsOr result.transaction_hash (jsOr result.hash (jsOr result.txHash
    (jsOr result.tx_hash result.transactionHash)))

def extractedHash (result : MintResult) : Option String :=
  match (result.data.bind (fun d => d.avalanche)).bind (fun av => av.data) with
  | some avalancheData => avalancheData.transaction_hash
  | none =>
    match (result.data.bind (fun d => d.arbitrum)).bind (fun ar => ar.data) with
    | some arbitrumData => arbitrumData.transaction_hash
    | none => flatHash result

/-- Pre-flight validation of `sendToAvalanche`: fetch the metadata URL, require a
parseable JSON body with a truthy `image` field, fetch the image URL, require
an `image/` content type.  Returns the fetches performed and the outcome. -/
def preflightValidation (env : Env) (gatewayUrl metadataHash : String) :
    List NetCall × Except String Unit :=
  let metadataUrl := gatewayUrl ++ "/ipfs/" ++ metadataHash
  if !env.metaResp.ok then
    ([NetCall.fetchMetadata metadataUrl],
     Except.error ("Metadata URL not accessible: " ++ metadataUrl))
  else
    match env.metaJson with
    | none =>
      ([NetCall.fetchMetadata metadataUrl],
       Except.error "Metadata JSON missing required \"image\" field")
    | some metaJson =>
      if !truthy metaJson.image then
        ([NetCall.fetchMetadata metadataUrl],
         Except.error "Metadata JSON missing required \"image\" field")
      else
        let img := metaJson.image.getD ""
        let imageUrl :=
          if strBeginsWith img "http" then img else gatewayUrl ++ "/ipfs/" ++ img
        if !env.imgResp.ok then
          ([NetCall.fetchMetadata metadataUrl, NetCall.fetchImage imageUrl],
           Except.error ("Image URL not accessible: " ++ imageUrl))
        else
          let contentType := env.imgContentType.getD ""
          if !strBeginsWith contentType "image/" then
            ([NetCall.fetchMetadata metadataUrl, NetCall.fetchImage imageUrl],
             Except.error ("Image URL does not return image content-type: " ++ contentType))
          else
            ([NetCall.fetchMetadata metadataUrl, NetCall.fetchImage imageUrl],
             Except.ok ())

/-- The anchoring payload (`avalancheData`) that `sendToAvalanche` builds once the
certificate, institution and (best-effort) student information are at hand. -/
def buildAvalancheData (env : Env) (certificate : Certificate)
    (institution : Institution) : AvalancheData :=
  let studentData : StudentData :=
    match env.studentUser with
    | some studentUser =>
      { id := studentUser.id
        email := studentUser.email
        full_name := studentUser.full_name
        wallet_address := "0xEe1001B535826EDc4247E7f3a024dDc145A20bdb" }
    | none =>
      { id := "550e8400-e29b-41d4-a716-446655440000"
        email := "estudiante@email.com"
        full_name := certificate.recipient_name
        wallet_address := "0xEe1001B535826EDc4247E7f3a024dDc145A20bdb" }
  let gatewayUrl := orDefault env.pinataGatewayUrl "https://gateway.pinata.cloud"
  let frontendUrl := orDefault env.frontendUrl ""
  { student := studentData
    certificate :=
      { title := "Certificado de Finalización - " ++ certificate.course_name
        description := "Certificado que acredita la finalización exitosa del curso"
        course_name := certificate.course_name
        issued_at := env.toIso certificate.issued_at
        grade := "A+"
        credits := 10 }
    institution :=
      { id := institution.id
        name := orDefault institution.name "Blokis Academy"
        legal_id := orDefault institution.legal_id "RUC-20123456789"
        address := "Ciudad de México, México"
        website := orDefault institution.website "https://blokis.com/" }
    ipfs :=
      { image_hash := certificate.image_hash.getD ""
        metadata_hash := certificate.metadata_hash.getD ""
        image_url := gatewayUrl ++ "/ipfs/" ++ certificate.image_hash.getD ""
        metadata_url := gatewayUrl ++ "/ipfs/" ++ certificate.metadata_hash.getD ""
        token_uri := gatewayUrl ++ "/ipfs/" ++ certificate.metadata_hash.getD ""
        front_end_url :=
          if frontendUrl == "" then none
          else some (frontendUrl ++ "/certificate/" ++ certificate.id) } }

/-- Result of one `sendToAvalanche` run: final table state, outbound network
calls in order, and the returned value or thrown error. -/
structure SendResult where
  db : DB
  calls : List NetCall
  out : Except String AvalancheResponse

/-- The mint-and-persist tail of `sendToAvalanche`, entered once pre-flight
validation has passed: mint POST, defensive hash extraction, persistence of
the primary (and, when present, secondary) transaction hash. -/
def sendToAvalancheTail (env : Env) (certificateId : String) (db : DB)
    (avalancheData : AvalancheData) (preCalls : List NetCall) : SendResult :=
  let calls := preCalls ++ [NetCall.mintRequest avalancheData]
  if !env.mintResp.ok then
    { db := db, calls := calls
      out := Except.error ("Avalanche API failed: " ++ toString env.mintResp.status
        ++ " - " ++ env.mintResp.body) }
  else
    let result := env.mintResult
    if !truthy (extractedHash result) then
      { db := db, calls := calls
        out := Except.error "No transaction hash received from Avalanche API" }
    else
      let transactionHash := (extractedHash result).getD ""
      match updateTransactionHash env certificateId transactionHash db with
      | (db2, Except.error e) => { db := db2, calls := calls, out := Except.error e }
      | (db2, Except.ok _) =>
        let avalancheResponse : AvalancheResponse :=
          { transaction_hash := transactionHash }
        let avalancheResponse :=
          match (result.data.bind (fun d => d.avalanche)).bind (fun av => av.data) with
          | some avData => { avalancheResponse with avalanche := some avData }
          | none => avalancheResponse
        match (result.data.bind (fun d => d.arbitrum)).bind (fun ar => ar.data) with
        | some arbitrumData =>
          let avalancheResponse :=
            { avalancheResponse with arbitrum := some arbitrumData }
          if truthy arbitrumData.transaction_hash then
            match updateArbitrumHash env certificateId
                (arbitrumData.transaction_hash.getD "") db2 with
            | (db3, Except.error e) =>
              { db := db3, calls := calls, out := Except.error e }
            | (db3, Except.ok _) =>
              { db := db3, calls := calls, out := Except.ok avalancheResponse }
          else
            { db := db2, calls := calls, out := Except.ok avalancheResponse }
        | none =>
          { db := db2, calls := calls, out := Except.ok avalancheResponse }

/-- PASO 3 `sendToAvalanche`: precondition check, institution and best-effort
student lookup, payload construction, pre-flight validation, mint POST,
defensive hash extraction, persistence of the primary (and, when present,
secondary) transaction hash. -/
def sendToAvalanche (env : Env) (certificateId : String) (db : DB) : SendResult :=
  match getCertificateById db certificateId with
  | Except.error e => { db := db, calls := [], out := Except.error e }
  | Except.ok certificate =>
    if !truthy certificate.image_hash || !truthy certificate.metadata_hash then
      { db := db, calls := []
        out := Except.error
          "Certificate must have image and metadata hashes before sending to Avalanche" }
    else
      match env.institution with
      | none =>
        { db := db, calls := []
          out := Except.error ("Institution not found: " ++ env.institutionErrMsg) }
      | some institution =>
        let avalancheData := buildAvalancheData env certificate institution
        let gatewayUrl := orDefault env.pinataGatewayUrl "https://gateway.pinata.cloud"
        match preflightValidation env gatewayUrl (certificate.metadata_hash.getD "") with
        | (preCalls, Except.error e) =>
          { db := db, calls := preCalls, out := Except.error e }
        | (preCalls, Except.ok _) =>
          sendToAvalancheTail env certificateId db avalancheData preCalls

/-- PASO 4 `generateQRCode`: precondition on transaction_hash, QR encode of the
verification URL, upload, persistence of the resulting URL. -/
def generateQRCode (env : Env) (certificateId : String) (db : DB) :
    DB × Except String String :=
  match getCertificateById db certificateId with
  | Except.error e => (db, Except.error e)
  | Except.ok certificate =>
    if !truthy certificate.transaction_hash then
      (db, Except.error "Certificate must have transaction_hash before generating QR")
    else
      let frontendRaw := orDefault env.frontendUrl ""
      let frontendUrl :=
        if frontendRaw == "" then "" else stripTrailingSlashes (ensureHttpUrl frontendRaw)
      let verificationUrl :=
        if frontendUrl == "" then "/verify/" ++ certificateId
        else frontendUrl ++ "/verify/" ++ certificateId
      match env.generateCustomQR verificationUrl with
      | Except.error e => (db, Except.error e)
      | Except.ok qrBuffer =>
        match env.uploadFileQr qrBuffer with
        | Except.error e => (db, Except.error e)
        | Except.ok qrCid =>
          let gatewayUrl := orDefault env.pinataGatewayUrl "https://gateway.pinata.cloud"
          let qrUrl := gatewayUrl ++ "/ipfs/" ++ qrCid
          match updateQRUrl env certificateId qrUrl db with
          | (db2, Except.error e) => (db2, Except.error e)
          | (db2, Except.ok _) => (db2, Except.ok qrUrl)

/-! ## Status and validation snapshots -/

structure StatusProgress where
  basic_created : Bool
  uploaded_to_pinata : Bool
  sent_to_avalanche : Bool
  qr_generated : Bool
deriving Repr, DecidableEq

structure StatusUrls where
  image_url : Option String
  metadata_url : Option String
  qr_url : Option String
deriving Repr, DecidableEq

structure CertStatus where
  certificate_id : String
  recipient_name : String
  progress : StatusProgress
  urls : StatusUrls
  avalanche_transaction_hash : Option String
deriving Repr, DecidableEq

/-- The snapshot `getCertificateStatus` derives from a fetched row.  The URL
fields interpolate the raw `PINATA_GATEWAY_URL` config value without a default. -/
def statusOf (env : Env) (certificateId : String) (certificate : Certificate) : CertStatus :=
  { certificate_id := certificateId
    recipient_name := certificate.recipient_name
    progress :=
      { basic_created := true
        uploaded_to_pinata := truthy certificate.image_hash && truthy certificate.metadata_hash
        sent_to_avalanche := truthy certificate.transaction_hash
        qr_generated := truthy certificate.qr_url }
    urls :=
      { image_url :=
          if truthy certificate.image_hash then
            some (jsInterp env.pinataGatewayUrl ++ "/ipfs/" ++ certificate.image_hash.getD "")
          else none
        metadata_url :=
          if truthy certificate.metadata_hash then
            some (jsInterp env.pinataGatewayUrl ++ "/ipfs/" ++ certificate.metadata_hash.getD "")
          else none
        qr_url := certificate.qr_url }
    avalanche_transaction_hash := certificate.transaction_hash }

/-- `getCertificateStatus`: fetch the row, derive the progress snapshot. -/
def getCertificateStatus (env : Env) (db : DB) (certificateId : String) :
    Except String CertStatus :=
  match getCertificateById db certificateId with
  | Except.error e => Except.error e
  | Except.ok certificate => Except.ok (statusOf env certificateId certificate)

structure ValidationOk where
  certificate_id : String
  valid : Bool
  database_check : Bool
  pinata_check : Bool
  avalanche_check : Bool
  arbitrum_check : Bool
  recipient_name : String
  issued_at : String
  verification_url : String
  image_url : Option String
  metadata_url : Option String
  avalanche_explorer_url : Option String
  arbitrum_explorer_url : Option String
  verified_at : String
deriving Repr, DecidableEq

structure ValidationErr where
  certificate_id : String
  valid : Bool
  error : String
  verified_at : String
deriving Repr, DecidableEq

/-- The two shapes `validateCertificate` can return: the full snapshot on a
fetched row, or the catch-branch record when fetching the row threw. -/
inductive Validation where
  | found (v : ValidationOk)
  | failed (v : ValidationErr)
deriving Repr, DecidableEq

def Validation.valid : Validation → Bool
  | .found v => v.valid
  | .failed v => v.valid

/-- The snapshot `validateCertificate` builds from a fetched row. -/
def validationOf (env : Env) (certificateId : String) (certificate : Certificate) :
    ValidationOk :=
  let gatewayFallback := orDefault env.pinataGatewayUrl "https://gateway.pinata.cloud"
  { certificate_id := certificateId
    valid := true
    database_check := true
    pinata_check := truthy certificate.image_hash && truthy certificate.metadata_hash
    avalanche_check := truthy certificate.transaction_hash
    arbitrum_check := truthy certificate.arbitrum_hash
    recipient_name := certificate.recipient_name
    issued_at := certificate.issued_at
    verification_url :=
      (let frontendRaw := orDefault env.frontendUrl ""
       let frontendUrl :=
         if frontendRaw == "" then "" else stripTrailingSlashes (ensureHttpUrl frontendRaw)
       if frontendUrl == "" then "/verify/" ++ certificateId
       else frontendUrl ++ "/verify/" ++ certificateId)
    image_url :=
      if truthy certificate.image_hash then
        some (gatewayFallback ++ "/ipfs/" ++ certificate.image_hash.getD "")
      else none
    metadata_url :=
      if truthy certificate.metadata_hash then
        some (gatewayFallback ++ "/ipfs/" ++ certificate.metadata_hash.getD "")
      else none
    avalanche_explorer_url :=
      if truthy certificate.transaction_hash then
        some ("https://testnet.snowtrace.io/tx/" ++ certificate.transaction_hash.getD "")
      else none
    arbitrum_explorer_url :=
      if truthy certificate.arbitrum_hash then
        some ("https://sepolia.arbiscan.io/tx/" ++ certificate.arbitrum_hash.getD "")
      else none
    verified_at := env.now }

/-- `validateCertificate`: read-and-derive; the catch branch converts a failed
fetch into a `valid:false` record instead of rethrowing. -/
def validateCertificate (env : Env) (db : DB) (certificateId : String) : Validation :=
  match getCertificateById db certificateId with
  | Except.ok certificate => Validation.found (validationOf env certificateId certificate)
  | Except.error e =>
    Validation.failed
      { certificate_id := certificateId
        valid := false
        error := e
        verified_at := env.now }

/-! ## The composite operation -/

structure Progress where
  certificate_id : String
  recipient_name : String
  current_step : String
  error : Option String := none
  completed_at : Option String := none
  failed_at : Option String := none
deriving Repr, DecidableEq

structure ResultUrls where
  certificate_view : String
  verification : String
  image : String
  metadata : String
  qr : String
  blockchain_avalanche_url : Option String
  blockchain_arbitrum_url : Option String
deriving Repr, DecidableEq

/-- The full-success value of `createCompleteCertificate`. -/
structure SuccessResult where
  success : Bool
  certificate_id : String
  certificate : Certificate
  pinata : PinataUploadResponse
  avalanche : AvalancheResponse
  qr_url : String
  progress : Progress
  urls : ResultUrls
deriving Repr, DecidableEq

/-- The structured value `createCompleteCertificate` returns when a step after
basic creation failed. -/
structure FallbackResult where
  success : Bool
  certificate_id : String
  error : String
  progress : Progress
  current_status : CertStatus
  message : String
deriving Repr, DecidableEq

inductive CompleteResult where
  | full (r : SuccessResult)
  | fallback (r : FallbackResult)
deriving Repr, DecidableEq

/-- A failure inside the inner try-block of `createCompleteCertificate`: the
`progress.current_step` label in force when the step threw, and the error message. -/
structure StepFailure where
  step : String
  message : String
deriving Repr, DecidableEq

/-- The inner try-block of `createCompleteCertificate`: steps 2 and 3, the
inlined QR generation and upload, the final re-fetch and the success bundle.
An error is tagged with the `current_step` label in force when it was thrown. -/
def runAfterBasic (env : Env) (createDto : CreateCertificateDto)
    (certificate : Certificate) (imageBuffer : String) (db : DB) :
    DB × Except StepFailure SuccessResult :=
  let certificateId := certificate.id
  match uploadToPinata env certificateId imageBuffer db with
  | (db1, Except.error e) => (db1, Except.error { step := "Uploading to Pinata", message := e })
  | (db1, Except.ok pinataResult) =>
    match sendToAvalanche env certificateId db1 with
    | { db := db2, calls := _, out := Except.error e } =>
      (db2, Except.error { step := "Sending to Avalanche", message := e })
    | { db := db2, calls := _, out := Except.ok avalancheResult } =>
      let frontendRaw := orDefault env.frontendUrl ""
      let frontendUrl :=
        if frontendRaw == "" then "" else stripTrailingSlashes (ensureHttpUrl frontendRaw)
      let verificationUrl :=
        if frontendUrl == "" then "/verify/" ++ certificateId
        else frontendUrl ++ "/verify/" ++ certificateId
      match env.generateCustomQR verificationUrl with
      | Except.error e => (db2, Except.error { step := "Generating QR code", message := e })
      | Except.ok qrBuffer =>
        let gatewayUrl := orDefault env.pinataGatewayUrl "https://gateway.pinata.cloud"
        match env.uploadFileQr qrBuffer with
        | Except.error e => (db2, Except.error { step := "Generating QR code", message := e })
        | Except.ok qrCid =>
          let qrUrl := gatewayUrl ++ "/ipfs/" ++ qrCid
          match updateQRUrl env certificateId qrUrl db2 with
          | (db3, Except.error e) =>
            (db3, Except.error { step := "Generating QR code", message := e })
          | (db3, Except.ok _) =>
            match getCertificateById db3 certificateId with
            | Except.error e =>
              (db3, Except.error { step := "Generating QR code", message := e })
            | Except.ok finalCertificate =>
              let avHash := avalancheResult.avalanche.bind (fun a => a.transaction_hash)
              let arbHash := avalancheResult.arbitrum.bind (fun a => a.transaction_hash)
              let blockchainAvalancheUrl :=
                if truthy avHash then
                  some ("https://testnet.snowtrace.io/tx/" ++ avHash.getD "")
                else none
              let blockchainArbitrumUrl :=
                if truthy arbHash then
                  some ("https://sepolia.arbiscan.io/tx/" ++ arbHash.getD "")
                else none
              (db3, Except.ok
                { success := true
                  certificate_id := certificateId
                  certificate := finalCertificate
                  pinata := pinataResult
                  avalanche := avalancheResult
                  qr_url := qrUrl
                  progress :=
                    { certificate_id := certificateId
                      recipient_name := createDto.recipient_name
                      current_step := "Completed"
                      error := none
                      completed_at := some env.now
                      failed_at := none }
                  urls :=
                    { certificate_view :=
                        cleanUrl (jsInterp env.frontendUrl ++ "/certificate/" ++ certificateId)
                      verification :=
                        cleanUrl (jsInterp env.frontendUrl ++ "/verify/" ++ certificateId)
                      image := pinataResult.image_url
                      metadata := pinataResult.metadata_url
                      qr := verificationUrl
                      blockchain_avalanche_url := blockchainAvalancheUrl
                      blockchain_arbitrum_url := blockchainArbitrumUrl } })

/-- MÉTODO AUTOMÁTICO `createCompleteCertificate`: step 1, then the inner
try-block; a failure after basic creation is caught and converted into a
structured partial result carrying the status read back from the table.
Errors of step 1 itself (and of the status read inside the catch) propagate. -/
def createCompleteCertificate (env : Env) (createDto : CreateCertificateDto)
    (imageBuffer : String) (db : DB) : DB × Except String CompleteResult :=
  match createBasicCertificate env createDto db with
  | (db0, Except.error e) => (db0, Except.error e)
  | (db0, Except.ok certificate) =>
    match runAfterBasic env createDto certificate imageBuffer db0 with
    | (db1, Except.ok successResult) => (db1, Except.ok (CompleteResult.full successResult))
    | (db1, Except.error stepFailure) =>
      match getCertificateStatus env db1 certificate.id with
      | Except.error e2 => (db1, Except.error e2)
      | Except.ok currentStatus =>
        (db1, Except.ok (CompleteResult.fallback
          { success := false
            certificate_id := certificate.id
            error := stepFailure.message
            progress :=
              { certificate_id := certificate.id
                recipient_name := createDto.recipient_name
                current_step := stepFailure.step
                error := some stepFailure.message
                completed_at := none
                failed_at := some env.now }
            current_status := currentStatus
            message := "Certificate basic creation succeeded, but failed at: "
              ++ stepFailure.step
              ++ ". You can continue manually using individual endpoints." }))

/-! ## The reachable-state invariant and helper lemmas -/

/-- The dependency-chain invariant on a certificate row: a transaction hash
requires both content hashes; a QR URL requires a transaction hash. -/
def certInv (c : Certificate) : Prop :=
  (c.transaction_hash ≠ none → c.image_hash ≠ none ∧ c.metadata_hash ≠ none) ∧
  (c.qr_url ≠ none → c.transaction_hash ≠ none)

/-- The invariant holds of every row of the table. -/
def dbInv (db : DB) : Prop := ∀ i c, db i = some c → certInv c

theorem truthy_ne_none {o : Option String} (h : truthy o = true) : o ≠ none := by
  cases o with
  | none => simp [truthy] at h
  | some s => simp

theorem dbInv_insert {db : DB} {c : Certificate} (hc : certInv c) (h : dbInv db) :
    dbInv (dbInsert db c) := by
  intro i x hx
  unfold dbInsert at hx
  by_cases hi : i = c.id
  · simp only [hi, if_pos rfl] at hx
    cases hx
    exact hc
  · simp only [hi, if_neg hi] at hx
    exact h i x hx

theorem dbInv_update {db : DB} {id : String} {f : Certificate → Certificate}
    (hf : ∀ c, db id = some c → certInv c → certInv (f c)) (h : dbInv db) :
    dbInv (dbUpdate db id f) := by
  intro i x hx
  unfold dbUpdate at hx
  by_cases hi : i = id
  · subst hi
    cases hc : db i with
    | none => rw [hc] at hx; simp at hx
    | some c0 =>
      rw [hc] at hx
      simp only [if_pos rfl, Option.map_some'] at hx
      cases hx
      exact hf c0 hc (h i c0 hc)
  · simp only [if_neg hi] at hx
    exact h i x hx

theorem dbUpdate_isSome (db : DB) (id : String) (f : Certificate → Certificate)
    (j : String) : ((dbUpdate db id f) j).isSome = (db j).isSome := by
  unfold dbUpdate
  by_cases hi : j = id
  · cases hc : db j <;> simp [hi, hc]
  · simp [hi]

theorem dbInv_updateCertificateHashes {env : Env} {id ih mh : String} {db : DB}
    (h : dbInv db) : dbInv (updateCertificateHashes env id ih mh db).1 := by
  unfold updateCertificateHashes
  cases env.updateHashesError with
  | some e => exact h
  | none =>
    exact dbInv_update
      (fun c _ hc => ⟨fun _ => ⟨Option.some_ne_none _, Option.some_ne_none _⟩,
        fun hq => hc.2 hq⟩) h

theorem dbInv_updateCertificateHashes_eq {env : Env} {id ih mh : String} {db : DB}
    {p : DB × Except String Unit} (heq : updateCertificateHashes env id ih mh db = p)
    (h : dbInv db) : dbInv p.1 :=
  heq ▸ dbInv_updateCertificateHashes h

theorem dbInv_updateTransactionHash {env : Env} {id tx : String} {db : DB}
    (hpre : ∀ c, db id = some c → c.image_hash ≠ none ∧ c.metadata_hash ≠ none)
    (h : dbInv db) : dbInv (updateTransactionHash env id tx db).1 := by
  unfold updateTransactionHash
  cases env.updateTxError with
  | some e => exact h
  | none =>
    exact dbInv_update
      (fun c hc _ => ⟨fun _ => hpre c hc, fun _ => Option.some_ne_none _⟩) h

theorem dbInv_updateArbitrumHash {env : Env} {id ah : String} {db : DB}
    (h : dbInv db) : dbInv (updateArbitrumHash env id ah db).1 := by
  unfold updateArbitrumHash
  cases env.updateArbError with
  | some e => exact h
  | none =>
    exact dbInv_update (fun c _ hc => ⟨fun ht => hc.1 ht, fun hq => hc.2 hq⟩) h

theorem dbInv_updateQRUrl {env : Env} {id qr : String} {db : DB}
    (hpre : ∀ c, db id = some c → c.transaction_hash ≠ none)
    (h : dbInv db) : dbInv (updateQRUrl env id qr db).1 := by
  unfold updateQRUrl
  cases env.updateQrError with
  | some e => exact h
  | none =>
    exact dbInv_update (fun c hc hcInv => ⟨fun ht => hcInv.1 ht, fun _ => hpre c hc⟩) h

theorem dbInv_createBasicCertificate {env : Env} {dto : CreateCertificateDto} {db : DB}
    (h : dbInv db) : dbInv (createBasicCertificate env dto db).1 := by
  unfold createBasicCertificate
  split
  · exact h
  · cases env.insertError with
    | some e => exact h
    | none =>
      exact dbInv_insert ⟨fun ht => (ht rfl).elim, fun hq => (hq rfl).elim⟩ h

theorem dbInv_uploadToPinata {env : Env} {id buf : String} {db : DB}
    (h : dbInv db) : dbInv (uploadToPinata env id buf db).1 := by
  unfold uploadToPinata
  split
  · exact h
  split
  · exact h
  dsimp only
  split
  · exact h
  split
  all_goals
    rename_i db2 r heq
    exact dbInv_updateCertificateHashes_eq heq h

theorem getCertificateById_ok {db : DB} {id : String} {c : Certificate}
    (h : getCertificateById db id = Except.ok c) : db id = some c := by
  unfold getCertificateById at h
  cases hc : db id with
  | none => rw [hc] at h; exact absurd h (by simp)
  | some c0 => rw [hc] at h; cases h; rfl

theorem dbInv_updateTransactionHash_eq {env : Env} {id tx : String} {db : DB}
    {p : DB × Except String Unit} (heq : updateTransactionHash env id tx db = p)
    (hpre : ∀ c, db id = some c → c.image_hash ≠ none ∧ c.metadata_hash ≠ none)
    (h : dbInv db) : dbInv p.1 :=
  heq ▸ dbInv_updateTransactionHash hpre h

theorem dbInv_updateArbitrumHash_eq {env : Env} {id ah : String} {db : DB}
    {p : DB × Except String Unit} (heq : updateArbitrumHash env id ah db = p)
    (h : dbInv db) : dbInv p.1 :=
  heq ▸ dbInv_updateArbitrumHash h

theorem dbInv_updateQRUrl_eq {env : Env} {id qr : String} {db : DB}
    {p : DB × Except String Unit} (heq : updateQRUrl env id qr db = p)
    (hpre : ∀ c, db id = some c → c.transaction_hash ≠ none)
    (h : dbInv db) : dbInv p.1 :=
  heq ▸ dbInv_updateQRUrl hpre h

theorem dbInv_sendToAvalanche {env : Env} {id : String} {db : DB}
    (h : dbInv db) : dbInv (sendToAvalanche env id db).db := by
  unfold sendToAvalanche
  split
  · exact h
  rename_i certificate hcert
  split
  · exact h
  rename_i hhashes
  have hpre : ∀ c, db id = some c → c.image_hash ≠ none ∧ c.metadata_hash ≠ none := by
    intro c hc
    rw [getCertificateById_ok hcert] at hc
    cases hc
    simp only [Bool.or_eq_true, Bool.not_eq_true', not_or] at hhashes
    exact ⟨truthy_ne_none (by simpa using hhashes.1),
           truthy_ne_none (by simpa using hhashes.2)⟩
  split
  · exact h
  dsimp only
  split
  · exact h
  unfold sendToAvalancheTail
  dsimp only
  split
  · exact h
  split
  · exact h
  split
  · rename_i db2 e heq
    exact dbInv_updateTransactionHash_eq heq hpre h
  rename_i db2 u heq
  have hdb2 : dbInv db2 := dbInv_updateTransactionHash_eq heq hpre h
  split
  · rename_i arbitrumData harb
    split
    · split
      all_goals
        rename_i db3 r heq2
        exact dbInv_updateArbitrumHash_eq heq2 hdb2
    · exact hdb2
  · exact hdb2

theorem dbInv_generateQRCode {env : Env} {id : String} {db : DB}
    (h : dbInv db) : dbInv (generateQRCode env id db).1 := by
  unfold generateQRCode
  split
  · exact h
  rename_i certificate hcert
  split
  · exact h
  rename_i htx
  have hpre : ∀ c, db id = some c → c.transaction_hash ≠ none := by
    intro c hc
    rw [getCertificateById_ok hcert] at hc
    cases hc
    simp only [Bool.not_eq_true'] at htx
    exact truthy_ne_none (by simpa using htx)
  dsimp only
  split
  · exact h
  split
  · exact h
  split
  all_goals
    rename_i db2 r heq
    exact dbInv_updateQRUrl_eq heq hpre h

theorem dbUpdate_self_lookup (db : DB) (id : String) (f : Certificate → Certificate) :
    (dbUpdate db id f) id = (db id).map f := by
  unfold dbUpdate
  simp

theorem updateTransactionHash_ok_db {env : Env} {id tx : String} {db db2 : DB} {u : Unit}
    (heq : updateTransactionHash env id tx db = (db2, Except.ok u)) :
    db2 = dbUpdate db id (fun c => { c with transaction_hash := some tx }) := by
  unfold updateTransactionHash at heq
  split at heq
  · simp at heq
  · rw [Prod.mk.injEq] at heq
    exact heq.1.symm

theorem updateArbitrumHash_ok_db {env : Env} {id ah : String} {db db2 : DB} {u : Unit}
    (heq : updateArbitrumHash env id ah db = (db2, Except.ok u)) :
    db2 = dbUpdate db id (fun c => { c with arbitrum_hash := some ah }) := by
  unfold updateArbitrumHash at heq
  split at heq
  · simp at heq
  · rw [Prod.mk.injEq] at heq
    exact heq.1.symm

theorem sendToAvalanche_ok_tx {env : Env} {id : String} {db db' : DB}
    {calls : List NetCall} {resp : AvalancheResponse}
    (hs : sendToAvalanche env id db = SendResult.mk db' calls (Except.ok resp)) :
    ∀ c, db' id = some c → c.transaction_hash ≠ none := by
  unfold sendToAvalanche at hs
  split at hs
  · simp at hs
  split at hs
  · simp at hs
  split at hs
  · simp at hs
  dsimp only at hs
  split at hs
  · simp at hs
  unfold sendToAvalancheTail at hs
  dsimp only at hs
  split at hs
  · simp at hs
  split at hs
  · simp at hs
  split at hs
  · simp at hs
  rename_i db2 u hequpd
  have hdb2 : db2 = dbUpdate db id
      (fun c => { c with transaction_hash := some ((extractedHash env.mintResult).getD "") }) :=
    updateTransactionHash_ok_db hequpd
  split at hs
  · rename_i arbitrumData harb
    split at hs
    · split at hs
      · simp at hs
      · rename_i db3 u2 heq2
        cases hs
        have hdb3 := updateArbitrumHash_ok_db heq2
        intro c hc
        rw [hdb3, dbUpdate_self_lookup, hdb2, dbUpdate_self_lookup] at hc
        cases hx : db id with
        | none => rw [hx] at hc; simp at hc
        | some c0 =>
          rw [hx] at hc
          simp only [Option.map_some'] at hc
          cases hc
          exact Option.some_ne_none _
    · cases hs
      intro c hc
      rw [hdb2, dbUpdate_self_lookup] at hc
      cases hx : db id with
      | none => rw [hx] at hc; simp at hc
      | some c0 =>
        rw [hx] at hc
        simp only [Option.map_some'] at hc
        cases hc
        exact Option.some_ne_none _
  · cases hs
    intro c hc
    rw [hdb2, dbUpdate_self_lookup] at hc
    cases hx : db id with
    | none => rw [hx] at hc; simp at hc
    | some c0 =>
      rw [hx] at hc
      simp only [Option.map_some'] at hc
      cases hc
      exact Option.some_ne_none _

theorem dbInv_cast {a b : DB} (e : a = b) (h : dbInv a) : dbInv b := e ▸ h

theorem updateCertificateHashes_eq_isSome {env : Env} {id ih mh : String} {db : DB}
    {p : DB × Except String Unit} (heq : updateCertificateHashes env id ih mh db = p)
    (j : String) : (p.1 j).isSome = (db j).isSome := by
  unfold updateCertificateHashes at heq
  split at heq
  · cases heq; rfl
  · cases heq; exact dbUpdate_isSome db id _ j

theorem updateTransactionHash_eq_isSome {env : Env} {id tx : String} {db : DB}
    {p : DB × Except String Unit} (heq : updateTransactionHash env id tx db = p)
    (j : String) : (p.1 j).isSome = (db j).isSome := by
  unfold updateTransactionHash at heq
  split at heq
  · cases heq; rfl
  · cases heq; exact dbUpdate_isSome db id _ j

theorem updateQRUrl_eq_isSome {env : Env} {id qr : String} {db : DB}
    {p : DB × Except String Unit} (heq : updateQRUrl env id qr db = p)
    (j : String) : (p.1 j).isSome = (db j).isSome := by
  unfold updateQRUrl at heq
  split at heq
  · cases heq; rfl
  · cases heq; exact dbUpdate_isSome db id _ j

theorem updateArbitrumHash_eq_isSome {env : Env} {id ah : String} {db : DB}
    {p : DB × Except String Unit} (heq : updateArbitrumHash env id ah db = p)
    (j : String) : (p.1 j).isSome = (db j).isSome := by
  unfold updateArbitrumHash at heq
  split at heq
  · cases heq; rfl
  · cases heq; exact dbUpdate_isSome db id _ j

theorem uploadToPinata_fst_isSome (env : Env) (id buf : String) (db : DB) (j : String) :
    ((uploadToPinata env id buf db).1 j).isSome = (db j).isSome := by
  unfold uploadToPinata
  split
  · rfl
  split
  · rfl
  dsimp only
  split
  · rfl
  split
  all_goals
    rename_i db2 r heq
    exact updateCertificateHashes_eq_isSome heq j

theorem sendToAvalanche_db_isSome (env : Env) (id : String) (db : DB) (j : String) :
    ((sendToAvalanche env id db).db j).isSome = (db j).isSome := by
  unfold sendToAvalanche
  split
  · rfl
  split
  · rfl
  split
  · rfl
  dsimp only
  split
  · rfl
  unfold sendToAvalancheTail
  dsimp only
  split
  · rfl
  split
  · rfl
  split
  · rename_i db2 e hequpd
    exact updateTransactionHash_eq_isSome hequpd j
  rename_i db2 u hequpd
  have h2 : (db2 j).isSome = (db j).isSome := updateTransactionHash_eq_isSome hequpd j
  split
  · rename_i arbitrumData harb
    split
    · split
      all_goals
        rename_i db3 r heq2
        rw [updateArbitrumHash_eq_isSome heq2 j]
        exact h2
    · exact h2
  · exact h2

theorem runAfterBasic_fst_isSome (env : Env) (dto : CreateCertificateDto)
    (certificate : Certificate) (buf : String) (db : DB) (j : String) :
    ((runAfterBasic env dto certificate buf db).1 j).isSome = (db j).isSome := by
  unfold runAfterBasic
  dsimp only
  split
  · rename_i db1 e heq
    have hdb1 : (uploadToPinata env certificate.id buf db).1 = db1 := by rw [heq]
    show (db1 j).isSome = (db j).isSome
    rw [← hdb1]
    exact uploadToPinata_fst_isSome env certificate.id buf db j
  rename_i db1 pinataResult heq
  have hdb1 : (uploadToPinata env certificate.id buf db).1 = db1 := by rw [heq]
  have h1 : (db1 j).isSome = (db j).isSome := by
    rw [← hdb1]
    exact uploadToPinata_fst_isSome env certificate.id buf db j
  split
  · rename_i db2 calls2 e heq2
    have hdb2 : (sendToAvalanche env certificate.id db1).db = db2 := by rw [heq2]
    show (db2 j).isSome = (db j).isSome
    rw [← hdb2, sendToAvalanche_db_isSome]
    exact h1
  rename_i db2 calls2 avalancheResult heq2
  have hdb2 : (sendToAvalanche env certificate.id db1).db = db2 := by rw [heq2]
  have h2 : (db2 j).isSome = (db j).isSome := by
    rw [← hdb2, sendToAvalanche_db_isSome]
    exact h1
  try dsimp only
  split
  · exact h2
  split
  · exact h2
  split
  · rename_i db3 e heq3
    show (db3 j).isSome = (db j).isSome
    rw [updateQRUrl_eq_isSome heq3 j]
    exact h2
  rename_i db3 u heq3
  have h3 : (db3 j).isSome = (db j).isSome := by
    rw [updateQRUrl_eq_isSome heq3 j]
    exact h2
  split
  · exact h3
  · exact h3

theorem dbInv_runAfterBasic {env : Env} {dto : CreateCertificateDto}
    {certificate : Certificate} {buf : String} {db : DB} (h : dbInv db) :
    dbInv (runAfterBasic env dto certificate buf db).1 := by
  unfold runAfterBasic
  dsimp only
  split
  · rename_i db1 e heq
    have hdb1 : (uploadToPinata env certificate.id buf db).1 = db1 := by rw [heq]
    show dbInv db1
    exact dbInv_cast hdb1 (dbInv_uploadToPinata h)
  rename_i db1 pinataResult heq
  have hdb1 : (uploadToPinata env certificate.id buf db).1 = db1 := by rw [heq]
  have h1 : dbInv db1 := dbInv_cast hdb1 (dbInv_uploadToPinata h)
  split
  · rename_i db2 calls2 e heq2
    have hdb2 : (sendToAvalanche env certificate.id db1).db = db2 := by rw [heq2]
    show dbInv db2
    exact dbInv_cast hdb2 (dbInv_sendToAvalanche h1)
  rename_i db2 calls2 avalancheResult heq2
  have hdb2 : (sendToAvalanche env certificate.id db1).db = db2 := by rw [heq2]
  have h2 : dbInv db2 := dbInv_cast hdb2 (dbInv_sendToAvalanche h1)
  have htx : ∀ c, db2 certificate.id = some c → c.transaction_hash ≠ none := by
    exact sendToAvalanche_ok_tx heq2
  try dsimp only
  split
  · exact h2
  split
  · exact h2
  split
  · rename_i db3 e heq3
    show dbInv db3
    exact dbInv_updateQRUrl_eq heq3 htx h2
  rename_i db3 u heq3
  have h3 : dbInv db3 := dbInv_updateQRUrl_eq heq3 htx h2
  split
  · exact h3
  · exact h3

theorem dbInv_createCompleteCertificate {env : Env} {dto : CreateCertificateDto}
    {buf : String} {db : DB} (h : dbInv db) :
    dbInv (createCompleteCertificate env dto buf db).1 := by
  unfold createCompleteCertificate
  split
  · rename_i db0 e heq
    have hdb0 : (createBasicCertificate env dto db).1 = db0 := by rw [heq]
    show dbInv db0
    exact dbInv_cast hdb0 (dbInv_createBasicCertificate h)
  rename_i db0 certificate heq
  have hdb0 : (createBasicCertificate env dto db).1 = db0 := by rw [heq]
  have h0 : dbInv db0 := dbInv_cast hdb0 (dbInv_createBasicCertificate h)
  split
  · rename_i db1 successResult heq1
    have hdb1 : (runAfterBasic env dto certificate buf db0).1 = db1 := by rw [heq1]
    show dbInv db1
    exact dbInv_cast hdb1 (dbInv_runAfterBasic h0)
  rename_i db1 stepFailure heq1
  have hdb1 : (runAfterBasic env dto certificate buf db0).1 = db1 := by rw [heq1]
  have h1 : dbInv db1 := dbInv_cast hdb1 (dbInv_runAfterBasic h0)
  split
  · exact h1
  · exact h1

/-! ## Pre-flight and extraction lemmas -/

/-- The four messages a pre-flight validation failure can abort with. -/
def isValidationErrorMsg (m : String) : Bool :=
  strBeginsWith m "Metadata URL not accessible: " ||
  (m == "Metadata JSON missing required \"image\" field") ||
  strBeginsWith m "Image URL not accessible: " ||
  strBeginsWith m "Image URL does not return image content-type: "

theorem charListBeginsWith_append (xs ys : List Char) :
    charListBeginsWith xs (xs ++ ys) = true := by
  induction xs with
  | nil => rfl
  | cons a as ih => simp [charListBeginsWith, ih]

theorem strBeginsWith_append (a b : String) : strBeginsWith (a ++ b) a = true := by
  unfold strBeginsWith
  rw [String.data_append]
  exact charListBeginsWith_append a.data b.data

theorem preflight_calls_noMint (env : Env) (g mh : String) :
    ∀ call ∈ (preflightValidation env g mh).1, call.isMint = false := by
  unfold preflightValidation
  split
  · intro call hcall
    simp only [List.mem_singleton] at hcall
    rw [hcall]; rfl
  split
  · intro call hcall
    simp only [List.mem_singleton] at hcall
    rw [hcall]; rfl
  split
  · intro call hcall
    simp only [List.mem_singleton] at hcall
    rw [hcall]; rfl
  dsimp only
  split
  · intro call hcall
    simp only [List.mem_cons, List.mem_singleton] at hcall
    rcases hcall with h | h | h
    · rw [h]; rfl
    · rw [h]; rfl
    · cases h
  split
  · intro call hcall
    simp only [List.mem_cons, List.mem_singleton] at hcall
    rcases hcall with h | h | h
    · rw [h]; rfl
    · rw [h]; rfl
    · cases h
  · intro call hcall
    simp only [List.mem_cons, List.mem_singleton] at hcall
    rcases hcall with h | h | h
    · rw [h]; rfl
    · rw [h]; rfl
    · cases h

theorem preflight_error_shape (env : Env) (g mh : String) :
    (preflightValidation env g mh).2 = Except.ok () ∨
    ∃ m, (preflightValidation env g mh).2 = Except.error m ∧ isValidationErrorMsg m = true := by
  unfold preflightValidation
  split
  · exact Or.inr ⟨_, rfl, by simp [isValidationErrorMsg, strBeginsWith_append]⟩
  split
  · exact Or.inr ⟨_, rfl, by simp [isValidationErrorMsg]⟩
  split
  · exact Or.inr ⟨_, rfl, by simp [isValidationErrorMsg]⟩
  dsimp only
  split
  · exact Or.inr ⟨_, rfl, by simp [isValidationErrorMsg, strBeginsWith_append]⟩
  split
  · exact Or.inr ⟨_, rfl, by simp [isValidationErrorMsg, strBeginsWith_append]⟩
  · exact Or.inl rfl

theorem preflight_ok_conditions (env : Env) (g mh : String)
    (h : (preflightValidation env g mh).2 = Except.ok ()) :
    env.metaResp.ok = true ∧
    (∃ mj, env.metaJson = some mj ∧ truthy mj.image = true) ∧
    env.imgResp.ok = true ∧
    strBeginsWith (env.imgContentType.getD "") "image/" = true := by
  unfold preflightValidation at h
  split at h
  · simp at h
  rename_i hmeta
  split at h
  · simp at h
  rename_i mj hmj
  split at h
  · simp at h
  rename_i himg
  dsimp only at h
  split at h
  · simp at h
  rename_i himgResp
  split at h
  · simp at h
  rename_i hct
  refine ⟨by simpa using hmeta, ⟨mj, hmj, by simpa using himg⟩,
    by simpa using himgResp, by simpa using hct⟩

/-! ## Claim theorems -/

/-- Claim C2: the reachable-state invariant on certificate rows (a non-null
`transaction_hash` implies non-null `image_hash` and `metadata_hash`; a non-null
`qr_url` implies a non-null `transaction_hash`) is preserved by every pipeline
operation: `createBasicCertificate`, `uploadToPinata`, `sendToAvalanche`,
`generateQRCode` and `createCompleteCertificate`. -/
theorem pipeline_preserves_invariant (env : Env) (dto : CreateCertificateDto)
    (certificateId buf : String) (db : DB) (h : dbInv db) :
    dbInv (createBasicCertificate env dto db).1 ∧
    dbInv (uploadToPinata env certificateId buf db).1 ∧
    dbInv (sendToAvalanche env certificateId db).db ∧
    dbInv (generateQRCode env certificateId db).1 ∧
    dbInv (createCompleteCertificate env dto buf db).1 :=
  ⟨dbInv_createBasicCertificate h, dbInv_uploadToPinata h, dbInv_sendToAvalanche h,
   dbInv_generateQRCode h, dbInv_createCompleteCertificate h⟩

def wEnv : Env :=
  { now := "2025-01-15T10:00:00.000Z"
    newId := "cert-1"
    uploadFileImage := fun _ => Except.error "Pinata upload failed" }

def wDto : CreateCertificateDto :=
  { course_name := "Blockchain 101", recipient_name := "Jane Doe",
    institute_id := "inst-1", issued_at := "2025-01-15" }

theorem pipeline_preserves_invariant_witness :
    dbInv dbEmpty ∧
    (dbInv (createBasicCertificate wEnv wDto dbEmpty).1 ∧
     dbInv (uploadToPinata wEnv "cert-1" "img" dbEmpty).1 ∧
     dbInv (sendToAvalanche wEnv "cert-1" dbEmpty).db ∧
     dbInv (generateQRCode wEnv "cert-1" dbEmpty).1 ∧
     dbInv (createCompleteCertificate wEnv wDto "img" dbEmpty).1) :=
  have h : dbInv dbEmpty := fun _ _ hc => nomatch hc
  ⟨h, pipeline_preserves_invariant wEnv wDto "cert-1" "img" dbEmpty h⟩

/-- Claim C5: on a certificate whose `image_hash` or `metadata_hash` is null,
`sendToAvalanche` fails with the precondition error and performs no network
call (no pre-flight fetch and no mint request). -/
theorem sendToAvalanche_precondition_aborts (env : Env) (certificateId : String)
    (db : DB) (c : Certificate) (hc : db certificateId = some c)
    (h : c.image_hash = none ∨ c.metadata_hash = none) :
    (sendToAvalanche env certificateId db).out =
      Except.error
        "Certificate must have image and metadata hashes before sending to Avalanche" ∧
    (sendToAvalanche env certificateId db).calls = [] := by
  have hcond : (!truthy c.image_hash || !truthy c.metadata_hash) = true := by
    rcases h with h | h <;> rw [h] <;> simp [truthy]
  unfold sendToAvalanche getCertificateById
  rw [hc]
  dsimp only
  rw [if_pos hcond]
  exact ⟨rfl, rfl⟩

def w5Cert : Certificate :=
  { id := "cert-1", recipient_name := "Jane Doe", course_name := "Blockchain 101",
    institute_id := "inst-1", issued_at := "2025-01-15",
    metadata_hash := some "metacid", created_at := "2025-01-15T10:00:00.000Z" }

def w5Db : DB := dbInsert dbEmpty w5Cert

theorem sendToAvalanche_precondition_aborts_witness :
    w5Db "cert-1" = some w5Cert ∧ w5Cert.image_hash = none ∧
    (sendToAvalanche wEnv "cert-1" w5Db).out =
      Except.error
        "Certificate must have image and metadata hashes before sending to Avalanche" ∧
    (sendToAvalanche wEnv "cert-1" w5Db).calls = [] :=
  ⟨rfl, rfl,
   sendToAvalanche_precondition_aborts wEnv "cert-1" w5Db w5Cert rfl (Or.inl rfl)⟩

/-- Strip the `verified_at` timestamp from a validation snapshot. -/
def clearVerifiedAt : Validation → Validation
  | Validation.found v => Validation.found { v with verified_at := "" }
  | Validation.failed v => Validation.failed { v with verified_at := "" }

/-- Claim C7 (amended): `getCertificateStatus` and `validateCertificate` perform
no writes (their embeddings return no table state).  `getCertificateStatus`
called at two different times on an unchanged certificate returns identical
snapshots; `validateCertificate` returns snapshots identical in every field
except `verified_at`, which records the wall-clock time of each call. -/
theorem readOps_idempotent_up_to_timestamp (env : Env) (t : String) (db : DB)
    (certificateId : String) :
    getCertificateStatus { env with now := t } db certificateId
      = getCertificateStatus env db certificateId ∧
    clearVerifiedAt (validateCertificate { env with now := t } db certificateId)
      = clearVerifiedAt (validateCertificate env db certificateId) := by
  constructor
  · unfold getCertificateStatus getCertificateById
    cases db certificateId <;> rfl
  · unfold validateCertificate getCertificateById
    cases db certificateId <;> rfl

def w7Cert : Certificate :=
  { id := "cert-1", recipient_name := "Jane Doe", course_name := "Blockchain 101",
    institute_id := "inst-1", issued_at := "2025-01-15",
    image_hash := some "imgcid", metadata_hash := some "metacid",
    created_at := "2025-01-15T10:00:00.000Z" }

def w7Db : DB := dbInsert dbEmpty w7Cert

def w7Env : Env := { wEnv with now := "2025-01-15T10:00:00.000Z" }

/-- Claim C7 (counterexample): `validateCertificate` embeds the current time as
`verified_at`, so two consecutive calls on an unchanged certificate (the second
one a millisecond later) return different snapshots, contrary to the claimed
identical snapshots. -/
theorem validate_twice_differs :
    validateCertificate w7Env w7Db "cert-1"
      ≠ validateCertificate { w7Env with now := "2025-01-15T10:00:00.001Z" } w7Db "cert-1" := by
  decide

/-- Claim C9 (amended): `validateCertificate` returns `valid:true` for every id
that resolves to an existing row, regardless of the pipeline fields; pipeline
incompleteness is reported only through `pinata_check`, `avalanche_check` and
`arbitrum_check` (the validation snapshot has no `qr_generated` field and is
independent of `qr_url`); `valid:false` occurs exactly when the row fetch
throws (unknown id). -/
theorem validate_valid_characterization (env : Env) (db : DB) (certificateId : String) :
    (∀ c, db certificateId = some c →
      validateCertificate env db certificateId
        = Validation.found (validationOf env certificateId c) ∧
      (validationOf env certificateId c).valid = true ∧
      (validationOf env certificateId c).pinata_check
        = (truthy c.image_hash && truthy c.metadata_hash) ∧
      (validationOf env certificateId c).avalanche_check = truthy c.transaction_hash ∧
      (validationOf env certificateId c).arbitrum_check = truthy c.arbitrum_hash ∧
      ∀ q, validationOf env certificateId { c with qr_url := q }
          = validationOf env certificateId c) ∧
    (db certificateId = none →
      (validateCertificate env db certificateId).valid = false) ∧
    ((validateCertificate env db certificateId).valid = false →
      db certificateId = none) := by
  refine ⟨?_, ?_, ?_⟩
  · intro c hc
    unfold validateCertificate getCertificateById
    rw [hc]
    exact ⟨rfl, rfl, rfl, rfl, rfl, fun q => rfl⟩
  · intro hc
    unfold validateCertificate getCertificateById
    rw [hc]
    rfl
  · intro hvalid
    cases hc : db certificateId with
    | none => rfl
    | some c =>
      unfold validateCertificate getCertificateById at hvalid
      rw [hc] at hvalid
      exact absurd hvalid (by simp [Validation.valid, validationOf])

theorem validate_valid_characterization_witness :
    w7Db "cert-1" = some w7Cert ∧
    (validateCertificate w7Env w7Db "cert-1"
        = Validation.found (validationOf w7Env "cert-1" w7Cert) ∧
      (validationOf w7Env "cert-1" w7Cert).valid = true ∧
      (validationOf w7Env "cert-1" w7Cert).pinata_check
        = (truthy w7Cert.image_hash && truthy w7Cert.metadata_hash) ∧
      (validationOf w7Env "cert-1" w7Cert).avalanche_check
        = truthy w7Cert.transaction_hash ∧
      (validationOf w7Env "cert-1" w7Cert).arbitrum_check
        = truthy w7Cert.arbitrum_hash ∧
      ∀ q, validationOf w7Env "cert-1" { w7Cert with qr_url := q }
          = validationOf w7Env "cert-1" w7Cert) ∧
    (validateCertificate w7Env dbEmpty "cert-1").valid = false :=
  ⟨rfl,
   (validate_valid_characterization w7Env w7Db "cert-1").1 w7Cert rfl,
   (validate_valid_characterization w7Env dbEmpty "cert-1").2.1 rfl⟩

def w9CertQr : Certificate := { w7Cert with transaction_hash := some "0xav" }

def w9DbNoQr : DB := dbInsert dbEmpty w9CertQr

def w9DbWithQr : DB :=
  dbInsert dbEmpty { w9CertQr with qr_url := some "https://gateway.pinata.cloud/ipfs/qrcid" }

/-- Claim C9 (counterexample): two rows that differ exactly in `qr_url` (one has
a QR, the other does not) yield identical validation snapshots, so QR-stage
incompleteness is not reported by `validateCertificate` through any field; in
particular there is no `qr_generated` boolean in the validation snapshot,
contrary to the claim's list of reporting booleans. -/
theorem validate_ignores_qr_counterexample :
    w9DbNoQr "cert-1" ≠ w9DbWithQr "cert-1" ∧
    validateCertificate w7Env w9DbNoQr "cert-1"
      = validateCertificate w7Env w9DbWithQr "cert-1" := by
  constructor
  · decide
  · decide

theorem sendToAvalanche_preflight_error_path {env : Env} {certificateId : String}
    {db : DB} {c : Certificate} {inst : Institution} {pcalls : List NetCall} {m : String}
    (hc : db certificateId = some c)
    (hih : truthy c.image_hash = true) (hmh : truthy c.metadata_hash = true)
    (hinst : env.institution = some inst)
    (hp : preflightValidation env
        (orDefault env.pinataGatewayUrl "https://gateway.pinata.cloud")
        (c.metadata_hash.getD "") = (pcalls, Except.error m)) :
    sendToAvalanche env certificateId db =
      { db := db, calls := pcalls, out := Except.error m } := by
  unfold sendToAvalanche getCertificateById
  rw [hc]
  dsimp only
  rw [hih, hmh]
  rw [if_neg (by decide)]
  rw [hinst]
  dsimp only
  rw [hp]

theorem sendToAvalanche_preflight_ok_path {env : Env} {certificateId : String}
    {db : DB} {c : Certificate} {inst : Institution} {pcalls : List NetCall}
    (hc : db certificateId = some c)
    (hih : truthy c.image_hash = true) (hmh : truthy c.metadata_hash = true)
    (hinst : env.institution = some inst)
    (hp : preflightValidation env
        (orDefault env.pinataGatewayUrl "https://gateway.pinata.cloud")
        (c.metadata_hash.getD "") = (pcalls, Except.ok ())) :
    sendToAvalanche env certificateId db =
      sendToAvalancheTail env certificateId db (buildAvalancheData env c inst) pcalls := by
  unfold sendToAvalanche getCertificateById
  rw [hc]
  dsimp only
  rw [hih, hmh]
  rw [if_neg (by decide)]
  rw [hinst]
  dsimp only
  rw [hp]

/-- Claim C3: whenever pre-flight validation fails (metadata fetch not HTTP-ok,
metadata body not parseable JSON or without a truthy `image` field, image fetch
not HTTP-ok, or content type not prefixed by `image/`), `sendToAvalanche` aborts
with one of the pre-flight validation error messages and the mint endpoint is
never invoked. -/
theorem preflight_failure_aborts_before_mint (env : Env) (certificateId : String)
    (db : DB) (c : Certificate) (inst : Institution)
    (hc : db certificateId = some c)
    (hih : truthy c.image_hash = true) (hmh : truthy c.metadata_hash = true)
    (hinst : env.institution = some inst)
    (hfail : env.metaResp.ok = false ∨ env.metaJson = none ∨
      (∃ mj, env.metaJson = some mj ∧ truthy mj.image = false) ∨
      env.imgResp.ok = false ∨
      strBeginsWith (env.imgContentType.getD "") "image/" = false) :
    (∃ m, (sendToAvalanche env certificateId db).out = Except.error m ∧
      isValidationErrorMsg m = true) ∧
    ∀ call ∈ (sendToAvalanche env certificateId db).calls, call.isMint = false := by
  rcases hp : preflightValidation env
      (orDefault env.pinataGatewayUrl "https://gateway.pinata.cloud")
      (c.metadata_hash.getD "") with ⟨pcalls, r⟩
  have hp2 : (preflightValidation env
      (orDefault env.pinataGatewayUrl "https://gateway.pinata.cloud")
      (c.metadata_hash.getD "")).2 = r := by rw [hp]
  cases r with
  | ok u =>
    cases u
    obtain ⟨h1, ⟨mj, hmj, himg⟩, h3, h4⟩ := preflight_ok_conditions _ _ _ hp2
    exfalso
    rcases hfail with f | f | ⟨mj2, hmj2, f⟩ | f | f
    · rw [h1] at f; exact Bool.noConfusion f
    · rw [hmj] at f; exact Option.noConfusion f
    · rw [hmj] at hmj2
      injection hmj2 with hh
      subst hh
      rw [himg] at f
      exact Bool.noConfusion f
    · rw [h3] at f; exact Bool.noConfusion f
    · rw [h4] at f; exact Bool.noConfusion f
  | error m =>
    have hred := sendToAvalanche_preflight_error_path hc hih hmh hinst hp
    rw [hred]
    constructor
    · refine ⟨m, rfl, ?_⟩
      rcases preflight_error_shape env
          (orDefault env.pinataGatewayUrl "https://gateway.pinata.cloud")
          (c.metadata_hash.getD "") with hok | ⟨m2, hm2, hv⟩
      · rw [hp2] at hok; exact Except.noConfusion hok
      · rw [hp2] at hm2
        injection hm2 with hh
        subst hh
        exact hv
    · intro call hcall
      have hnm := preflight_calls_noMint env
        (orDefault env.pinataGatewayUrl "https://gateway.pinata.cloud")
        (c.metadata_hash.getD "")
      rw [hp] at hnm
      exact hnm call hcall

def w3Env : Env :=
  { now := "2025-01-15T10:00:00.000Z"
    newId := "cert-1"
    institution := some { id := "inst-1", name := some "Blokis Institute" } }

theorem preflight_failure_aborts_before_mint_witness :
    w7Db "cert-1" = some w7Cert ∧ w3Env.metaResp.ok = false ∧
    ((∃ m, (sendToAvalanche w3Env "cert-1" w7Db).out = Except.error m ∧
        isValidationErrorMsg m = true) ∧
      ∀ call ∈ (sendToAvalanche w3Env "cert-1" w7Db).calls, call.isMint = false) :=
  ⟨rfl, rfl,
   preflight_failure_aborts_before_mint w3Env "cert-1" w7Db w7Cert
     { id := "inst-1", name := some "Blokis Institute" }
     rfl rfl rfl rfl (Or.inl rfl)⟩

theorem extractedHash_falsy {r : MintResult}
    (h1 : truthy (((r.data.bind (fun d => d.avalanche)).bind (fun av => av.data)).bind
      (fun ad => ad.transaction_hash)) = false)
    (h2 : truthy (((r.data.bind (fun d => d.arbitrum)).bind (fun ar => ar.data)).bind
      (fun ad => ad.transaction_hash)) = false)
    (h3 : truthy r.transaction_hash = false) (h4 : truthy r.hash = false)
    (h5 : truthy r.txHash = false) (h6 : truthy r.tx_hash = false)
    (h7 : truthy r.transactionHash = false) :
    truthy (extractedHash r) = false := by
  unfold extractedHash
  cases hav : (r.data.bind (fun d => d.avalanche)).bind (fun av => av.data) with
  | some ad =>
    rw [hav] at h1
    simpa using h1
  | none =>
    cases harb : (r.data.bind (fun d => d.arbitrum)).bind (fun ar => ar.data) with
    | some bd =>
      rw [harb] at h2
      simpa using h2
    | none =>
      simp [flatHash, jsOr, h3, h4, h5, h6, h7]

theorem sendToAvalancheTail_no_hash {env : Env} {certificateId : String} {db : DB}
    {ad : AvalancheData} {pc : List NetCall}
    (hmint : env.mintResp.ok = true)
    (hext : truthy (extractedHash env.mintResult) = false) :
    (sendToAvalancheTail env certificateId db ad pc).out =
      Except.error "No transaction hash received from Avalanche API" := by
  unfold sendToAvalancheTail
  rw [hmint]
  rw [if_neg (by decide)]
  dsimp only
  rw [hext]
  rw [if_pos (by decide)]

/-- Claim C4: transaction-hash extraction tries the primary-chain nested field
first, then the secondary-chain nested field, then the flat aliases
`transaction_hash`, `hash`, `txHash`, `tx_hash`, `transactionHash` (in the order
fixed by `flatHash`); a response carrying the hash in any one of the three
shapes yields that hash, and when every candidate is absent or empty the
anchoring run is a fatal `No transaction hash received from Avalanche API`. -/
theorem hash_extraction_order :
    (∀ (r : MintResult) (d : MintData) (av : ChainEntry) (ad : ChainData),
      r.data = some d → d.avalanche = some av → av.data = some ad →
      truthy ad.transaction_hash = true → extractedHash r = ad.transaction_hash) ∧
    (∀ (r : MintResult) (bd : ChainData),
      (r.data.bind (fun d => d.avalanche)).bind (fun av => av.data) = none →
      (r.data.bind (fun d => d.arbitrum)).bind (fun ar => ar.data) = some bd →
      truthy bd.transaction_hash = true → extractedHash r = bd.transaction_hash) ∧
    (∀ (r : MintResult),
      (r.data.bind (fun d => d.avalanche)).bind (fun av => av.data) = none →
      (r.data.bind (fun d => d.arbitrum)).bind (fun ar => ar.data) = none →
      extractedHash r = flatHash r) ∧
    (∀ (env : Env) (certificateId : String) (db : DB) (c : Certificate)
        (inst : Institution),
      db certificateId = some c →
      truthy c.image_hash = true → truthy c.metadata_hash = true →
      env.institution = some inst →
      (preflightValidation env
        (orDefault env.pinataGatewayUrl "https://gateway.pinata.cloud")
        (c.metadata_hash.getD "")).2 = Except.ok () →
      env.mintResp.ok = true →
      truthy (((env.mintResult.data.bind (fun d => d.avalanche)).bind
        (fun av => av.data)).bind (fun ad => ad.transaction_hash)) = false →
      truthy (((env.mintResult.data.bind (fun d => d.arbitrum)).bind
        (fun ar => ar.data)).bind (fun ad => ad.transaction_hash)) = false →
      truthy env.mintResult.transaction_hash = false →
      truthy env.mintResult.hash = false →
      truthy env.mintResult.txHash = false →
      truthy env.mintResult.tx_hash = false →
      truthy env.mintResult.transactionHash = false →
      (sendToAvalanche env certificateId db).out =
        Except.error "No transaction hash received from Avalanche API") := by
  refine ⟨?_, ?_, ?_, ?_⟩
  · intro r d av ad h1 h2 h3 _
    simp [extractedHash, h1, h2, h3]
  · intro r bd h1 h2 _
    simp [extractedHash, h1, h2]
  · intro r h1 h2
    simp [extractedHash, h1, h2]
  · intro env certificateId db c inst hc hih hmh hinst hpf hmint f1 f2 f3 f4 f5 f6 f7
    rcases hp : preflightValidation env
        (orDefault env.pinataGatewayUrl "https://gateway.pinata.cloud")
        (c.metadata_hash.getD "") with ⟨pcalls, r⟩
    have hp2 : (preflightValidation env
        (orDefault env.pinataGatewayUrl "https://gateway.pinata.cloud")
        (c.metadata_hash.getD "")).2 = r := by rw [hp]
    rw [hpf] at hp2
    cases hp2
    have hred := sendToAvalanche_preflight_ok_path hc hih hmh hinst hp
    rw [hred]
    exact sendToAvalancheTail_no_hash hmint (extractedHash_falsy f1 f2 f3 f4 f5 f6 f7)

def w4ra : MintResult :=
  { data := some { avalanche := some { data := some { transaction_hash := some "0xav" } } } }

def w4rb : MintResult :=
  { data := some { arbitrum := some { data := some { transaction_hash := some "0xarb" } } } }

def w4rc : MintResult := { txHash := some "0xflat" }

def w4Env : Env :=
  { w3Env with
    metaResp := { ok := true, status := 200 }
    metaJson := some { image := some "https://img.example/x.png" }
    imgResp := { ok := true, status := 200 }
    imgContentType := some "image/png"
    mintResp := { ok := true, status := 200 }
    mintResult := {} }

theorem hash_extraction_order_witness :
    extractedHash w4ra = some "0xav" ∧
    extractedHash w4rb = some "0xarb" ∧
    extractedHash w4rc = flatHash w4rc ∧
    flatHash w4rc = some "0xflat" ∧
    (sendToAvalanche w4Env "cert-1" w7Db).out =
      Except.error "No transaction hash received from Avalanche API" :=
  ⟨hash_extraction_order.1 w4ra _ _ _ rfl rfl rfl (by decide),
   hash_extraction_order.2.1 w4rb _ rfl rfl (by decide),
   hash_extraction_order.2.2.1 w4rc rfl rfl,
   by decide,
   hash_extraction_order.2.2.2 w4Env "cert-1" w7Db w7Cert
     { id := "inst-1", name := some "Blokis Institute" }
     rfl rfl rfl rfl (by decide) rfl rfl rfl rfl rfl rfl rfl rfl⟩

/-- Claim C8: when the mint response contains the nested primary-chain container
`result.data.avalanche.data` but that container's `transaction_hash` is absent
or empty, `sendToAvalanche` fails with `No transaction hash received from
Avalanche API` without falling through to the secondary container or the flat
aliases — those later candidates are arbitrary here, so the failure occurs even
when one of them holds a hash. -/
theorem primary_container_commits (env : Env) (certificateId : String) (db : DB)
    (c : Certificate) (inst : Institution) (d : MintData) (av : ChainEntry)
    (ad : ChainData)
    (hc : db certificateId = some c)
    (hih : truthy c.image_hash = true) (hmh : truthy c.metadata_hash = true)
    (hinst : env.institution = some inst)
    (hpf : (preflightValidation env
      (orDefault env.pinataGatewayUrl "https://gateway.pinata.cloud")
      (c.metadata_hash.getD "")).2 = Except.ok ())
    (hmint : env.mintResp.ok = true)
    (hdata : env.mintResult.data = some d) (hav : d.avalanche = some av)
    (had : av.data = some ad)
    (hfalsy : truthy ad.transaction_hash = false) :
    (sendToAvalanche env certificateId db).out =
      Except.error "No transaction hash received from Avalanche API" := by
  rcases hp : preflightValidation env
      (orDefault env.pinataGatewayUrl "https://gateway.pinata.cloud")
      (c.metadata_hash.getD "") with ⟨pcalls, r⟩
  have hp2 : (preflightValidation env
      (orDefault env.pinataGatewayUrl "https://gateway.pinata.cloud")
      (c.metadata_hash.getD "")).2 = r := by rw [hp]
  rw [hpf] at hp2
  cases hp2
  rw [sendToAvalanche_preflight_ok_path hc hih hmh hinst hp]
  have hext : extractedHash env.mintResult = ad.transaction_hash := by
    simp [extractedHash, hdata, hav, had]
  exact sendToAvalancheTail_no_hash hmint (by rw [hext]; exact hfalsy)

def w8Env : Env :=
  { w4Env with
    mintResult :=
      { data := some
          { avalanche := some { data := some {} }
            arbitrum := some { data := some { transaction_hash := some "0xarb" } } }
        transaction_hash := some "0xflat" } }

theorem primary_container_commits_witness :
    (w8Env.mintResult.data.bind (fun d => d.arbitrum)).bind (fun ar => ar.data)
      = some { transaction_hash := some "0xarb" } ∧
    w8Env.mintResult.transaction_hash = some "0xflat" ∧
    (sendToAvalanche w8Env "cert-1" w7Db).out =
      Except.error "No transaction hash received from Avalanche API" :=
  ⟨rfl, rfl,
   primary_container_commits w8Env "cert-1" w7Db w7Cert
     { id := "inst-1", name := some "Blokis Institute" }
     { avalanche := some { data := some {} }
       arbitrum := some { data := some { transaction_hash := some "0xarb" } } }
     { data := some {} } {}
     rfl rfl rfl rfl (by decide) rfl rfl rfl rfl rfl⟩

theorem sendToAvalancheTail_arb_fail {env : Env} {certificateId : String} {db : DB}
    {ad : AvalancheData} {pc : List NetCall} {bd : ChainData} {e : String}
    (hmint : env.mintResp.ok = true)
    (hext : truthy (extractedHash env.mintResult) = true)
    (htx : env.updateTxError = none)
    (harb : (env.mintResult.data.bind (fun d => d.arbitrum)).bind (fun ar => ar.data)
      = some bd)
    (htr : truthy bd.transaction_hash = true)
    (harbErr : env.updateArbError = some e) :
    sendToAvalancheTail env certificateId db ad pc =
      { db := dbUpdate db certificateId
          (fun c => { c with
            transaction_hash := some ((extractedHash env.mintResult).getD "") })
        calls := pc ++ [NetCall.mintRequest ad]
        out := Except.error ("Failed to update Arbitrum hash: " ++ e) } := by
  unfold sendToAvalancheTail
  rw [hmint, if_neg (by decide)]
  dsimp only
  rw [hext, if_neg (by decide)]
  unfold updateTransactionHash
  rw [htx]
  dsimp only
  rw [harb]
  dsimp only
  rw [htr, if_pos rfl]
  unfold updateArbitrumHash
  rw [harbErr]

/-- Claim C6 (amended): when the ledger response also carries a secondary-chain
(Arbitrum) transaction hash, `sendToAvalanche` persists it separately, after the
primary hash; but a failure of that secondary persistence is fatal: the
anchoring operation throws `Failed to update Arbitrum hash: ...` even though
the primary transaction hash has already been persisted on the row. -/
theorem arbitrum_persist_failure_is_fatal (env : Env) (certificateId : String)
    (db : DB) (c : Certificate) (inst : Institution) (bd : ChainData) (e : String)
    (hc : db certificateId = some c)
    (hih : truthy c.image_hash = true) (hmh : truthy c.metadata_hash = true)
    (hinst : env.institution = some inst)
    (hpf : (preflightValidation env
      (orDefault env.pinataGatewayUrl "https://gateway.pinata.cloud")
      (c.metadata_hash.getD "")).2 = Except.ok ())
    (hmint : env.mintResp.ok = true)
    (hext : truthy (extractedHash env.mintResult) = true)
    (htx : env.updateTxError = none)
    (harb : (env.mintResult.data.bind (fun d => d.arbitrum)).bind (fun ar => ar.data)
      = some bd)
    (htr : truthy bd.transaction_hash = true)
    (harbErr : env.updateArbError = some e) :
    (sendToAvalanche env certificateId db).out =
      Except.error ("Failed to update Arbitrum hash: " ++ e) ∧
    (sendToAvalanche env certificateId db).db certificateId =
      some { c with transaction_hash := some ((extractedHash env.mintResult).getD "") } := by
  rcases hp : preflightValidation env
      (orDefault env.pinataGatewayUrl "https://gateway.pinata.cloud")
      (c.metadata_hash.getD "") with ⟨pcalls, r⟩
  have hp2 : (preflightValidation env
      (orDefault env.pinataGatewayUrl "https://gateway.pinata.cloud")
      (c.metadata_hash.getD "")).2 = r := by rw [hp]
  rw [hpf] at hp2
  cases hp2
  rw [sendToAvalanche_preflight_ok_path hc hih hmh hinst hp,
    sendToAvalancheTail_arb_fail hmint hext htx harb htr harbErr]
  constructor
  · rfl
  · show dbUpdate db certificateId _ certificateId = _
    rw [dbUpdate_self_lookup, hc]
    rfl

def w6Env : Env :=
  { w4Env with
    mintResult :=
      { data := some
          { avalanche := some { data := some { transaction_hash := some "0xav" } }
            arbitrum := some { data := some { transaction_hash := some "0xarb" } } } }
    updateArbError := some "network unreachable" }

/-- Claim C6 (counterexample): a run in which the mint response carries both a
primary and a secondary transaction hash and the secondary-hash persistence
fails does NOT complete successfully: `sendToAvalanche` throws the Arbitrum
persistence error, contradicting the claim that such a failure is non-fatal. -/
theorem arbitrum_persist_nonfatal_counterexample :
    ((w6Env.mintResult.data.bind (fun d => d.arbitrum)).bind (fun ar => ar.data)).bind
        (fun ad => ad.transaction_hash) = some "0xarb" ∧
    (sendToAvalanche w6Env "cert-1" w7Db).out =
      Except.error "Failed to update Arbitrum hash: network unreachable" := by
  constructor
  · rfl
  · decide

theorem arbitrum_persist_failure_is_fatal_witness :
    w7Db "cert-1" = some w7Cert ∧
    ((sendToAvalanche w6Env "cert-1" w7Db).out =
        Except.error ("Failed to update Arbitrum hash: " ++ "network unreachable") ∧
      (sendToAvalanche w6Env "cert-1" w7Db).db "cert-1" =
        some { w7Cert with
          transaction_hash := some ((extractedHash w6Env.mintResult).getD "") }) :=
  ⟨rfl,
   arbitrum_persist_failure_is_fatal w6Env "cert-1" w7Db w7Cert
     { id := "inst-1", name := some "Blokis Institute" }
     { transaction_hash := some "0xarb" } "network unreachable"
     rfl rfl rfl rfl (by decide) rfl (by decide) rfl rfl rfl rfl⟩

theorem sendToAvalancheTail_calls (env : Env) (certificateId : String) (db : DB)
    (ad : AvalancheData) (pc : List NetCall) :
    (sendToAvalancheTail env certificateId db ad pc).calls
      = pc ++ [NetCall.mintRequest ad] := by
  unfold sendToAvalancheTail
  split
  · rfl
  dsimp only
  split
  · rfl
  split
  · rfl
  split
  · split
    · split <;> rfl
    · rfl
  · rfl

theorem sendToAvalanche_mint_payload {env : Env} {certificateId : String} {db : DB}
    {p : AvalancheData}
    (hp : NetCall.mintRequest p ∈ (sendToAvalanche env certificateId db).calls) :
    ∃ c inst, db certificateId = some c ∧ env.institution = some inst ∧
      p = buildAvalancheData env c inst := by
  unfold sendToAvalanche at hp
  split at hp
  · simp at hp
  rename_i certificate hcert
  split at hp
  · simp at hp
  split at hp
  · simp at hp
  rename_i institution hinst
  dsimp only at hp
  split at hp
  · rename_i preCalls e heqpre
    exfalso
    have hnm := preflight_calls_noMint env
      (orDefault env.pinataGatewayUrl "https://gateway.pinata.cloud")
      (certificate.metadata_hash.getD "")
    rw [heqpre] at hnm
    have := hnm _ hp
    simp [NetCall.isMint] at this
  rename_i preCalls u heqpre
  rw [sendToAvalancheTail_calls] at hp
  rw [List.mem_append] at hp
  rcases hp with hp | hp
  · exfalso
    have hnm := preflight_calls_noMint env
      (orDefault env.pinataGatewayUrl "https://gateway.pinata.cloud")
      (certificate.metadata_hash.getD "")
    rw [heqpre] at hnm
    have := hnm _ hp
    simp [NetCall.isMint] at this
  · rw [List.mem_singleton] at hp
    injection hp with hpp
    exact ⟨certificate, institution, getCertificateById_ok hcert, hinst, hpp⟩

/-- Claim C10: every anchoring payload `sendToAvalanche` submits to the mint
endpoint carries the fixed wallet address
`0xEe1001B535826EDc4247E7f3a024dDc145A20bdb`, grade `A+` and credits `10`,
whether or not the best-effort user lookup by recipient name succeeds; when the
lookup found nothing, the student block keeps the certificate's recipient name
and takes the fixed placeholder id and email. -/
theorem mint_payload_constants (env : Env) (certificateId : String) (db : DB)
    (c : Certificate) (p : AvalancheData)
    (hc : db certificateId = some c)
    (hp : NetCall.mintRequest p ∈ (sendToAvalanche env certificateId db).calls) :
    p.student.wallet_address = "0xEe1001B535826EDc4247E7f3a024dDc145A20bdb" ∧
    p.certificate.grade = "A+" ∧
    p.certificate.credits = 10 ∧
    (env.studentUser = none →
      p.student.full_name = c.recipient_name ∧
      p.student.id = "550e8400-e29b-41d4-a716-446655440000" ∧
      p.student.email = "estudiante@email.com") := by
  obtain ⟨c2, inst, hc2, hinstE, hpp⟩ := sendToAvalanche_mint_payload hp
  rw [hc] at hc2
  injection hc2 with hcc
  subst hcc
  subst hpp
  refine ⟨?_, rfl, rfl, ?_⟩
  · cases hsu : env.studentUser with
    | none => simp [buildAvalancheData, hsu]
    | some u => simp [buildAvalancheData, hsu]
  · intro hnone
    simp [buildAvalancheData, hnone]

theorem mint_payload_constants_witness :
    w7Db "cert-1" = some w7Cert ∧
    NetCall.mintRequest (buildAvalancheData w4Env w7Cert
        { id := "inst-1", name := some "Blokis Institute" })
      ∈ (sendToAvalanche w4Env "cert-1" w7Db).calls ∧
    ((buildAvalancheData w4Env w7Cert
        { id := "inst-1", name := some "Blokis Institute" }).student.wallet_address
      = "0xEe1001B535826EDc4247E7f3a024dDc145A20bdb" ∧
    (buildAvalancheData w4Env w7Cert
        { id := "inst-1", name := some "Blokis Institute" }).certificate.grade = "A+" ∧
    (buildAvalancheData w4Env w7Cert
        { id := "inst-1", name := some "Blokis Institute" }).certificate.credits = 10 ∧
    (w4Env.studentUser = none →
      (buildAvalancheData w4Env w7Cert
          { id := "inst-1", name := some "Blokis Institute" }).student.full_name
        = w7Cert.recipient_name ∧
      (buildAvalancheData w4Env w7Cert
          { id := "inst-1", name := some "Blokis Institute" }).student.id
        = "550e8400-e29b-41d4-a716-446655440000" ∧
      (buildAvalancheData w4Env w7Cert
          { id := "inst-1", name := some "Blokis Institute" }).student.email
        = "estudiante@email.com")) :=
  ⟨rfl, by decide,
   mint_payload_constants w4Env "cert-1" w7Db w7Cert
     (buildAvalancheData w4Env w7Cert { id := "inst-1", name := some "Blokis Institute" })
     rfl (by decide)⟩

theorem createBasicCertificate_ok {env : Env} {dto : CreateCertificateDto}
    {db db0 : DB} {cert : Certificate}
    (h : createBasicCertificate env dto db = (db0, Except.ok cert)) :
    db0 cert.id = some cert := by
  unfold createBasicCertificate at h
  split at h
  · simp at h
  split at h
  · simp at h
  rw [Prod.mk.injEq] at h
  obtain ⟨hdb, hcert⟩ := h
  injection hcert with hcert
  subst hcert
  rw [← hdb]
  unfold dbInsert
  simp

/-- Claim C1: whenever basic record creation (step 1) succeeds and a later step
(Pinata upload, Avalanche anchoring, or QR generation) throws,
`createCompleteCertificate` returns normally rather than throwing, and the
returned value is the structured partial result: `success:false`, the created
certificate's id, the failing step's error message, a progress object labelled
with the failing step, and the current on-disk status computed via
`getCertificateStatus` on the table state the failed run left behind. -/
theorem createComplete_partial_on_step_failure (env : Env)
    (dto : CreateCertificateDto) (imageBuffer : String) (db db0 db1 : DB)
    (cert : Certificate) (sf : StepFailure)
    (h1 : createBasicCertificate env dto db = (db0, Except.ok cert))
    (h2 : runAfterBasic env dto cert imageBuffer db0 = (db1, Except.error sf)) :
    ∃ st, getCertificateStatus env db1 cert.id = Except.ok st ∧
      createCompleteCertificate env dto imageBuffer db =
        (db1, Except.ok (CompleteResult.fallback
          { success := false
            certificate_id := cert.id
            error := sf.message
            progress :=
              { certificate_id := cert.id
                recipient_name := dto.recipient_name
                current_step := sf.step
                error := some sf.message
                completed_at := none
                failed_at := some env.now }
            current_status := st
            message := "Certificate basic creation succeeded, but failed at: "
              ++ sf.step
              ++ ". You can continue manually using individual endpoints." })) := by
  have hsome0 : (db0 cert.id).isSome = true := by
    rw [createBasicCertificate_ok h1]; rfl
  have h3 := runAfterBasic_fst_isSome env dto cert imageBuffer db0 cert.id
  rw [h2] at h3
  dsimp only at h3
  have hsome1 : (db1 cert.id).isSome = true := h3.trans hsome0
  obtain ⟨c1, hc1⟩ := Option.isSome_iff_exists.mp hsome1
  refine ⟨statusOf env cert.id c1, ?_, ?_⟩
  · unfold getCertificateStatus getCertificateById
    rw [hc1]
  · unfold createCompleteCertificate
    rw [h1]
    dsimp only
    rw [h2]
    dsimp only
    unfold getCertificateStatus getCertificateById
    rw [hc1]

def w1Cert : Certificate :=
  { id := "cert-1", recipient_name := "Jane Doe", course_name := "Blockchain 101",
    institute_id := "inst-1", issued_at := "2025-01-15",
    created_at := "2025-01-15T10:00:00.000Z" }

def w1Db : DB := dbInsert dbEmpty w1Cert

theorem createComplete_partial_on_step_failure_witness :
    ∃ st, getCertificateStatus wEnv w1Db "cert-1" = Except.ok st ∧
      createCompleteCertificate wEnv wDto "img" dbEmpty =
        (w1Db, Except.ok (CompleteResult.fallback
          { success := false
            certificate_id := "cert-1"
            error := "Pinata upload failed"
            progress :=
              { certificate_id := "cert-1"
                recipient_name := "Jane Doe"
                current_step := "Uploading to Pinata"
                error := some "Pinata upload failed"
                completed_at := none
                failed_at := some "2025-01-15T10:00:00.000Z" }
            current_status := st
            message := "Certificate basic creation succeeded, but failed at: "
              ++ "Uploading to Pinata"
              ++ ". You can continue manually using individual endpoints." })) :=
  createComplete_partial_on_step_failure wEnv wDto "img" dbEmpty w1Db w1Db w1Cert
    { step := "Uploading to Pinata", message := "Pinata upload failed" } rfl rfl
